import Mathlib

/-!
Shallow embedding of the exchange-sink, date-type and iceberg-table code of
the datafuse repository, together with theorems settling the spec claims.

The embedded source files are:
- `src/query/src/api/rpc/exchange/exchange_sink_merge.rs`
- `src/common/datavalues2/src/types/data_type_date32.rs`
- `src/src/query/storages/iceberg/src/table.rs`

External crates (async_channel, arrow flight serialization, opendal reads,
serde_json) and repository modules absent from the sources at hand
(common_datablocks, common_datavalues2 columns) are modelled at the
granularity of their outcomes; everything else is a direct translation.
-/

namespace Datafuse

/-- The four scheduler events a processor can report
(`crate::pipelines::new::processors::processor::Event`). -/
inductive Event
  | NeedData
  | Sync
  | Async
  | Finished
deriving DecidableEq, Repr

/-- Error codes of `common_exception::ErrorCode`, restricted to the
constructors the embedded code produces; `Other` stands for every other
error kind an external call may surface. -/
inductive ErrorCode
  | UnImplement (msg : String)
  | TokioError (msg : String)
  | ReadTableDataError (msg : String)
  | Other (msg : String)
deriving DecidableEq, Repr

/-- `true` exactly on the `ReadTableDataError` kind. -/
def ErrorCode.is_read_table_data_error : ErrorCode → Bool
  | ErrorCode.ReadTableDataError _ => true
  | _ => false

/-- An arrow flight wire frame (`common_arrow::arrow_format::flight::data::FlightData`),
kept opaque: only its identity matters to the embedded code. -/
structure FlightData where
  data_body : List Nat
deriving DecidableEq, Repr

/-- `async_channel::TrySendError`: a failed non-blocking send returns the
message back inside the error. -/
inductive TrySendError (α : Type)
  | Closed (value : α)
  | Full (value : α)
deriving DecidableEq, Repr

/-- State of a bounded `async_channel` channel of flight frames. -/
structure Channel where
  closed : Bool
  capacity : Nat
  queue : List FlightData
deriving DecidableEq, Repr

/-- `async_channel::Sender::try_send`: fails with `Closed` when the channel is
closed, with `Full` when the bounded queue is at capacity, and otherwise
enqueues the frame. -/
def Channel.try_send (ch : Channel) (v : FlightData) :
    Channel × Option (TrySendError FlightData) :=
  if ch.closed then (ch, some (TrySendError.Closed v))
  else if ch.capacity ≤ ch.queue.length then (ch, some (TrySendError.Full v))
  else ({ ch with queue := ch.queue ++ [v] }, none)

/-- `async_channel::Sender::send(..).await`: awaits space, so it only fails
when the channel is closed; otherwise the frame is eventually enqueued. -/
def Channel.send (ch : Channel) (v : FlightData) : Except Unit Channel :=
  if ch.closed then Except.error ()
  else Except.ok { ch with queue := ch.queue ++ [v] }

/-- A handle to the producing end of an exchange channel
(`async_channel::Sender<FlightData>`), identified by the channel it points at. -/
structure Sender where
  id : Nat
deriving DecidableEq, Repr

/-- The exchange manager as the sink sees it: a resolver from
(query id, destination id) to the destination publish channel, which may fail. -/
structure ExchangeManager where
  fragment_sink : String → String → Except ErrorCode Sender

/-- `DataExchangeManager::get_fragment_sink`. -/
def ExchangeManager.get_fragment_sink (m : ExchangeManager)
    (query_id : String) (destination_id : String) : Except ErrorCode Sender :=
  m.fragment_sink query_id destination_id

/-- The slice of `QueryContext` the sink uses. -/
structure QueryContext where
  exchange_manager : ExchangeManager

/-- `QueryContext::get_exchange_manager`. -/
def QueryContext.get_exchange_manager (ctx : QueryContext) : ExchangeManager :=
  ctx.exchange_manager

/-- The result of serializing one chunk for the wire
(`serialize_batch` returns `(dicts, values)`). -/
structure Chunk where
  dicts : List FlightData
  values : FlightData
deriving DecidableEq, Repr

/-- Modelled from the spec: `common_datablocks::DataBlock` is absent from the
sources at hand; the spec describes a ColumnarBlock as "an immutable batch of
column values with a row count" that "may be empty (zero rows)". The block
carries its row count together with the outcome of its conversion to an arrow
chunk (`DataBlock::try_into`, which may fail). -/
structure DataBlock where
  num_rows : Nat
  chunk : Except ErrorCode Chunk
deriving Repr

/-- Modelled from the spec: `DataBlock::is_empty` is absent from the sources
at hand; per the spec an empty block is one with zero rows. -/
def DataBlock.is_empty (b : DataBlock) : Bool :=
  b.num_rows == 0

/-- `DataBlock::try_into::<Chunk>`, the fallible conversion to an arrow chunk. -/
def DataBlock.try_into (b : DataBlock) : Except ErrorCode Chunk :=
  b.chunk

/-- Serialization parameters of the exchange boundary
(`SerializeParams { options, ipc_fields }`), opaque to this development. -/
structure SerializeParams where
  options : Nat
  ipc_fields : Nat
deriving DecidableEq, Repr

/-- Modelled from the spec: `common_arrow::arrow::io::flight::serialize_batch`
is an external serializer; the spec treats the wire encoding as opaque.
It returns the dictionary frames and the values frame of the chunk. -/
def serialize_batch (chunks : Chunk) (ipc_fields : Nat) (options : Nat) :
    List FlightData × FlightData :=
  (chunks.dicts, chunks.values)

/-- `MergeExchangeParams`: the destination coordinates plus the (fallible)
construction of the serialization parameters
(`MergeExchangeParams::create_serialize_params`). -/
structure MergeExchangeParams where
  query_id : String
  destination_id : String
  serialize_params : Except ErrorCode SerializeParams

/-- `MergeExchangeParams::create_serialize_params`. -/
def MergeExchangeParams.create_serialize_params (p : MergeExchangeParams) :
    Except ErrorCode SerializeParams :=
  p.serialize_params

/-- The sink's `InputPort`: a finished flag, at most one in-flight block
(whose production may itself have failed), and the need-data flag. -/
structure InputPort where
  finished : Bool
  data : Option (Except ErrorCode DataBlock)
  need_data : Bool
deriving Repr

/-- `InputPort::is_finished`. -/
def InputPort.is_finished (p : InputPort) : Bool :=
  p.finished

/-- `InputPort::has_data`. -/
def InputPort.has_data (p : InputPort) : Bool :=
  p.data.isSome

/-- `InputPort::set_need_data`. -/
def InputPort.set_need_data (p : InputPort) : InputPort :=
  { p with need_data := true }

/-- The `ExchangeMergeSink` processor state, field for field. -/
structure ExchangeMergeSink where
  ctx : QueryContext
  input : InputPort
  input_data : Option DataBlock
  output_data : Option FlightData
  serialize_params : SerializeParams
  exchange_params : MergeExchangeParams
  peer_endpoint_publisher : Option Sender

/-- `ExchangeMergeSink::try_create`: builds the sink with empty buffers and no
resolved publisher, propagating a failure of `create_serialize_params`. -/
def ExchangeMergeSink.try_create (ctx : QueryContext) (input : InputPort)
    (exchange_params : MergeExchangeParams) : Except ErrorCode ExchangeMergeSink :=
  match exchange_params.create_serialize_params with
  | Except.error e => Except.error e
  | Except.ok serialize_params =>
      Except.ok
        { ctx := ctx
          input := input
          exchange_params := exchange_params
          serialize_params := serialize_params
          input_data := none
          output_data := none
          peer_endpoint_publisher := none }

/-- The world the sink interacts with: the destination channel of this
exchange boundary, plus a count of exchange-manager lookups performed
(instrumentation for the laziness claim, invisible to the sink). -/
structure ExchangeState where
  channel : Channel
  lookups : Nat
deriving Repr

/-- Outcome of one `event()` call: updated sink, updated world, and the
returned `Result<Event>`. -/
structure EventStep where
  sink : ExchangeMergeSink
  world : ExchangeState
  result : Except ErrorCode Event

/-- Outcome of one `async_process()` call. -/
structure SinkStep where
  sink : ExchangeMergeSink
  world : ExchangeState
  result : Except ErrorCode Unit

/-- The tail of `ExchangeMergeSink::event` after the pending-output section:
buffered input reports `Sync`; a finished input port reports `Finished`;
available input is pulled into the buffer and reports `Sync` (propagating a
pulled error); otherwise the port is marked need-data and `NeedData` is
reported. -/
def ExchangeMergeSink.eventInput (s : ExchangeMergeSink) (w : ExchangeState) : EventStep :=
  if s.input_data.isSome then
    { sink := s, world := w, result := Except.ok Event.Sync }
  else if s.input.is_finished then
    { sink := s, world := w, result := Except.ok Event.Finished }
  else if s.input.has_data then
    match s.input.data with
    | some (Except.ok block) =>
        { sink := { s with input := { s.input with data := none }, input_data := some block }
          world := w
          result := Except.ok Event.Sync }
    | some (Except.error e) =>
        { sink := { s with input := { s.input with data := none } }
          world := w
          result := Except.error e }
    | none =>
        { sink := s, world := w
          result := Except.error (ErrorCode.Other "pull_data unwrap on empty port") }
  else
    { sink := { s with input := s.input.set_need_data }
      world := w
      result := Except.ok Event.NeedData }

/-- The flush attempt of `ExchangeMergeSink::event` once the publisher has
been resolved (or found unresolvable): `try_send` success falls through to the
input section, `Closed` reports `Finished` (dropping the frame), `Full` puts
the frame back into `output_data` and reports `Async`. -/
def ExchangeMergeSink.eventFlush (s : ExchangeMergeSink) (w : ExchangeState)
    (output : FlightData) : EventStep :=
  match s.peer_endpoint_publisher with
  | none => ExchangeMergeSink.eventInput s w
  | some _ =>
      match w.channel.try_send output with
      | (ch, none) =>
          ExchangeMergeSink.eventInput s { w with channel := ch }
      | (ch, some (TrySendError.Closed _)) =>
          { sink := s, world := { w with channel := ch }, result := Except.ok Event.Finished }
      | (ch, some (TrySendError.Full value)) =>
          { sink := { s with output_data := some value }
            world := { w with channel := ch }
            result := Except.ok Event.Async }

/-- `ExchangeMergeSink::event`: takes any pending output frame, lazily
resolves the publisher through the exchange manager when it is not cached
(propagating a resolution failure), attempts the non-blocking flush, and
otherwise evaluates the input section. -/
def ExchangeMergeSink.event (s : ExchangeMergeSink) (w : ExchangeState) : EventStep :=
  match s.output_data with
  | none => ExchangeMergeSink.eventInput s w
  | some output =>
      let s0 : ExchangeMergeSink := { s with output_data := none }
      match s0.peer_endpoint_publisher with
      | some _ => ExchangeMergeSink.eventFlush s0 w output
      | none =>
          let query_id := s0.exchange_params.query_id
          let destination_id := s0.exchange_params.destination_id
          let exchange_manager := s0.ctx.get_exchange_manager
          let w1 : ExchangeState := { w with lookups := w.lookups + 1 }
          match exchange_manager.get_fragment_sink query_id destination_id with
          | Except.error e => { sink := s0, world := w1, result := Except.error e }
          | Except.ok sender =>
              ExchangeMergeSink.eventFlush
                { s0 with peer_endpoint_publisher := some sender } w1 output

/-- `ExchangeMergeSink::process`: takes the buffered block; an empty block is
consumed silently; otherwise the block is converted and serialized, a
non-empty dictionary set is refused with an `UnImplement` error, and the
values frame is stored as the pending output. -/
def ExchangeMergeSink.process (s : ExchangeMergeSink) :
    ExchangeMergeSink × Except ErrorCode Unit :=
  match s.input_data with
  | none => (s, Except.ok ())
  | some data_block =>
      let s0 : ExchangeMergeSink := { s with input_data := none }
      if data_block.is_empty then (s0, Except.ok ())
      else
        match data_block.try_into with
        | Except.error e => (s0, Except.error e)
        | Except.ok chunks =>
            let serialized :=
              serialize_batch chunks s0.serialize_params.ipc_fields s0.serialize_params.options
            if serialized.1.isEmpty then
              ({ s0 with output_data := some serialized.2 }, Except.ok ())
            else
              (s0, Except.error (ErrorCode.UnImplement "DatabendQuery does not implement dicts."))

/-- `ExchangeMergeSink::async_process`: takes any pending output frame and,
when a publisher is cached, performs the awaited send, turning a send failure
into a `TokioError`; with no cached publisher the frame is dropped and `Ok`
is returned. -/
def ExchangeMergeSink.async_process (s : ExchangeMergeSink) (w : ExchangeState) : SinkStep :=
  match s.output_data with
  | none => { sink := s, world := w, result := Except.ok () }
  | some output_data =>
      let s0 : ExchangeMergeSink := { s with output_data := none }
      match s0.peer_endpoint_publisher with
      | none => { sink := s0, world := w, result := Except.ok () }
      | some _ =>
          match w.channel.send output_data with
          | Except.ok ch =>
              { sink := s0, world := { w with channel := ch }, result := Except.ok () }
          | Except.error _ =>
              { sink := s0, world := w
                result := Except.error (ErrorCode.TokioError
                  "Cannot send flight data to endpoint, because sender is closed.") }

/-! ## `data_type_date32.rs` -/

/-- Modelled from the spec: `common_datavalues2::DataValue` and its `as_i64`
conversion are absent from the sources at hand (the spec treats the concrete
scalar type system as out of scope); a value is modelled by the outcome of
that conversion, which is all `create_constant_column` inspects. -/
structure DataValue where
  as_i64 : Except ErrorCode Int

/-- Rust's `as i32` on an `i64`: two's-complement wrapping into
`[-2^31, 2^31)`. -/
def i64_as_i32 (v : Int) : Int :=
  (v + 2 ^ 31) % 2 ^ 32 - 2 ^ 31

/-- Modelled from the spec: the concrete column types of `common_datavalues2`
are absent from the sources at hand; a produced column is modelled by its
cells. `int32 cells` is an `Int32` column whose cells are `some v` for a
value and `none` for a null. -/
inductive ColumnRef
  | int32 (cells : List (Option Int))
deriving DecidableEq, Repr

/-- `Int32Column::full(value, size).into_column()`: a length-`size` column
whose every cell holds `value`. -/
def Int32Column.full (value : Int) (size : Nat) : ColumnRef :=
  ColumnRef.int32 (List.replicate size (some value))

/-- `Int32Column::full_null(size).into_column()`: a length-`size` column of
nulls. -/
def Int32Column.full_null (size : Nat) : ColumnRef :=
  ColumnRef.int32 (List.replicate size none)

/-- `DataTypeDate32::create_constant_column`: a convertible value yields a
constant column of the value truncated to `i32`; a failed conversion yields
an all-null column, with `Ok` returned either way. -/
def DataTypeDate32.create_constant_column (data : DataValue) (size : Nat) :
    Except ErrorCode ColumnRef :=
  match data.as_i64 with
  | Except.ok value => Except.ok (Int32Column.full (i64_as_i32 value) size)
  | Except.error _ => Except.ok (Int32Column.full_null size)

/-! ## `iceberg/src/table.rs` -/

/-- `iceberg_rs::model::table::TableMetadataV2`, opaque: only its identity
matters to the embedded code. -/
structure TableMetadataV2 where
  tag : Nat
deriving DecidableEq, Repr

/-- `common_meta_app::schema::TableMeta`, opaque result of the iceberg
metadata conversion. -/
structure TableMeta where
  tag : Nat
deriving DecidableEq, Repr

/-- `common_meta_app::schema::TableIdent::new`. -/
structure TableIdent where
  table_id : Nat
  seq : Nat
deriving DecidableEq, Repr

/-- The fields of `common_meta_app::schema::TableInfo` the embedded code
populates. -/
structure TableInfo where
  ident : TableIdent
  desc : String
  name : String
  meta : TableMeta
  tenant : String
deriving DecidableEq, Repr

/-- The environment of `IcebergTable::try_create_table_from_read`: outcomes of
the external calls it performs, each keyed by its argument so that concrete
environments are executable. `read` is the object-storage read keyed by path
(`opendal`), `from_utf8` is `String::from_utf8`, `parse_u64` is
`str::parse::<u64>` on the trimmed hint, `deserialize_metadata` is
`serde_json::de::from_slice::<TableMetadataV2>`, and `meta_convert` is
`converters::meta_iceberg_to_databend`. -/
structure IcebergEnv where
  read : String → Except String (List Nat)
  from_utf8 : List Nat → Except String String
  parse_u64 : String → Except String Nat
  deserialize_metadata : List Nat → Except String TableMetadataV2
  meta_convert : String → TableMetadataV2 → TableMeta

/-- `META_DIR`. -/
def META_DIR : String := "metadata"

/-- `META_PTR`. -/
def META_PTR : String := "metadata/version_hint.text"

/-- The `IcebergTable` struct. -/
structure IcebergTable where
  database : String
  name : String
  catalog_root : IcebergEnv
  manifests : TableMetadataV2
  info : TableInfo

/-- `IcebergTable::try_create_table_from_read`: reads the version hint,
decodes and parses it, reads and deserializes the versioned metadata file,
and builds the table; each failure is wrapped as a `ReadTableDataError`. -/
def IcebergTable.try_create_table_from_read (catalog : String) (tenant : String)
    (database : String) (table_name : String) (catalog_root : IcebergEnv) :
    Except ErrorCode IcebergTable :=
  let meta_ptr_file := database ++ "/" ++ table_name ++ "/" ++ META_PTR
  match catalog_root.read meta_ptr_file with
  | Except.error e =>
      Except.error (ErrorCode.ReadTableDataError ("invalid version_hint.text: " ++ e))
  | Except.ok hint_bytes =>
      match catalog_root.from_utf8 hint_bytes with
      | Except.error e =>
          Except.error (ErrorCode.ReadTableDataError ("invalid version_hint.text: " ++ e))
      | Except.ok hint_text =>
          match catalog_root.parse_u64 hint_text.trim with
          | Except.error e =>
              Except.error (ErrorCode.ReadTableDataError ("invalid version_hint.text: " ++ e))
          | Except.ok version =>
              let meta_file_latest := database ++ "/" ++ table_name ++ "/" ++ META_DIR
                ++ "/v" ++ toString version ++ ".metadata.json"
              match catalog_root.read meta_file_latest with
              | Except.error e =>
                  Except.error (ErrorCode.ReadTableDataError
                    ("invalid metadata in " ++ meta_file_latest ++ ": " ++ e))
              | Except.ok meta_json =>
                  match catalog_root.deserialize_metadata meta_json with
                  | Except.error e =>
                      Except.error (ErrorCode.ReadTableDataError
                        ("invalid metadata in " ++ meta_file_latest ++ ": " ++ e))
                  | Except.ok metadata =>
                      let info : TableInfo :=
                        { ident := { table_id := 0, seq := 0 }
                          desc := "IcebergTable: " ++ database ++ "." ++ table_name
                          name := table_name
                          meta := catalog_root.meta_convert catalog metadata
                          tenant := tenant }
                      Except.ok
                        { database := database
                          name := table_name
                          catalog_root := catalog_root
                          manifests := metadata
                          info := info }

/-! ## Concrete fixtures used by witnesses -/

/-- A sample wire frame. -/
def sampleFrame : FlightData := { data_body := [7] }

/-- A chunk whose serialization has no dictionary frames. -/
def sampleChunkPlain : Chunk := { dicts := [], values := sampleFrame }

/-- A chunk whose serialization has one dictionary frame. -/
def sampleChunkDicts : Chunk := { dicts := [sampleFrame], values := sampleFrame }

/-- A zero-row block. -/
def sampleBlockEmpty : DataBlock := { num_rows := 0, chunk := Except.ok sampleChunkPlain }

/-- A ten-row block with a plain serialization. -/
def sampleBlock : DataBlock := { num_rows := 10, chunk := Except.ok sampleChunkPlain }

/-- A ten-row block whose serialization needs dictionaries. -/
def sampleBlockDicts : DataBlock := { num_rows := 10, chunk := Except.ok sampleChunkDicts }

/-- A manager that resolves every destination to channel handle 0. -/
def sampleManager : ExchangeManager :=
  { fragment_sink := fun _ _ => Except.ok { id := 0 } }

/-- A query context over `sampleManager`. -/
def sampleCtx : QueryContext := { exchange_manager := sampleManager }

/-- An idle input port. -/
def samplePort : InputPort := { finished := false, data := none, need_data := false }

/-- Sample serialization parameters. -/
def sampleSerialize : SerializeParams := { options := 0, ipc_fields := 0 }

/-- Sample exchange parameters. -/
def sampleParams : MergeExchangeParams :=
  { query_id := "query-1", destination_id := "node-2"
    serialize_params := Except.ok sampleSerialize }

/-- A freshly created sink: empty buffers, no cached publisher. -/
def sampleSink : ExchangeMergeSink :=
  { ctx := sampleCtx, input := samplePort, input_data := none, output_data := none
    serialize_params := sampleSerialize, exchange_params := sampleParams
    peer_endpoint_publisher := none }

/-- An open channel with spare capacity. -/
def openChannel : Channel := { closed := false, capacity := 2, queue := [] }

/-- An open channel at capacity. -/
def fullChannel : Channel := { closed := false, capacity := 1, queue := [sampleFrame] }

/-- A closed channel. -/
def closedChannel : Channel := { closed := true, capacity := 2, queue := [] }

/-- A world over the given channel with no lookups performed yet. -/
def sampleWorld (ch : Channel) : ExchangeState := { channel := ch, lookups := 0 }

/-! ## Helper lemmas -/

/-- The publisher of the sink resolves: it is either already cached or the
exchange manager lookup for this sink's coordinates succeeds. -/
def ExchangeMergeSink.can_resolve_publisher (s : ExchangeMergeSink) : Prop :=
  (∃ p, s.peer_endpoint_publisher = some p) ∨
    (s.peer_endpoint_publisher = none ∧
      ∃ p, s.ctx.get_exchange_manager.get_fragment_sink s.exchange_params.query_id
        s.exchange_params.destination_id = Except.ok p)

lemma Channel.try_send_closed (ch : Channel) (v : FlightData) (h : ch.closed = true) :
    ch.try_send v = (ch, some (TrySendError.Closed v)) := by
  unfold Channel.try_send
  rw [h]
  simp

lemma Channel.try_send_full (ch : Channel) (v : FlightData)
    (hopen : ch.closed = false) (hfull : ch.capacity ≤ ch.queue.length) :
    ch.try_send v = (ch, some (TrySendError.Full v)) := by
  unfold Channel.try_send
  rw [hopen]
  simp [hfull]

lemma ExchangeMergeSink.eventFlush_full (s : ExchangeMergeSink) (w : ExchangeState)
    (o : FlightData) (p : Sender)
    (hpub : s.peer_endpoint_publisher = some p)
    (hopen : w.channel.closed = false)
    (hfull : w.channel.capacity ≤ w.channel.queue.length) :
    s.eventFlush w o =
      { sink := { s with output_data := some o }, world := w
        result := Except.ok Event.Async } := by
  unfold ExchangeMergeSink.eventFlush
  rw [hpub, Channel.try_send_full w.channel o hopen hfull]

lemma ExchangeMergeSink.eventFlush_closed (s : ExchangeMergeSink) (w : ExchangeState)
    (o : FlightData) (p : Sender)
    (hpub : s.peer_endpoint_publisher = some p)
    (hclosed : w.channel.closed = true) :
    s.eventFlush w o =
      { sink := s, world := w, result := Except.ok Event.Finished } := by
  unfold ExchangeMergeSink.eventFlush
  rw [hpub, Channel.try_send_closed w.channel o hclosed]

lemma ExchangeMergeSink.eventInput_buffered (s : ExchangeMergeSink) (w : ExchangeState)
    (h : s.input_data.isSome = true) :
    s.eventInput w = { sink := s, world := w, result := Except.ok Event.Sync } := by
  unfold ExchangeMergeSink.eventInput
  simp [h]

lemma ExchangeMergeSink.eventInput_finished (s : ExchangeMergeSink) (w : ExchangeState)
    (h1 : s.input_data = none) (h2 : s.input.finished = true) :
    s.eventInput w = { sink := s, world := w, result := Except.ok Event.Finished } := by
  unfold ExchangeMergeSink.eventInput
  simp [h1, InputPort.is_finished, h2]

lemma ExchangeMergeSink.eventInput_pull (s : ExchangeMergeSink) (w : ExchangeState)
    (b : DataBlock) (h1 : s.input_data = none) (h2 : s.input.finished = false)
    (h3 : s.input.data = some (Except.ok b)) :
    s.eventInput w =
      { sink := { s with input := { s.input with data := none }, input_data := some b }
        world := w, result := Except.ok Event.Sync } := by
  unfold ExchangeMergeSink.eventInput
  simp [h1, InputPort.is_finished, h2, InputPort.has_data, h3]

lemma ExchangeMergeSink.eventInput_need_data (s : ExchangeMergeSink) (w : ExchangeState)
    (h1 : s.input_data = none) (h2 : s.input.finished = false)
    (h3 : s.input.data = none) :
    s.eventInput w =
      { sink := { s with input := s.input.set_need_data }
        world := w, result := Except.ok Event.NeedData } := by
  unfold ExchangeMergeSink.eventInput
  simp [h1, InputPort.is_finished, h2, InputPort.has_data, h3]

lemma ExchangeMergeSink.eventInput_world (s : ExchangeMergeSink) (w : ExchangeState) :
    (s.eventInput w).world = w := by
  unfold ExchangeMergeSink.eventInput
  split
  case isTrue => rfl
  case isFalse =>
    split
    case isTrue => rfl
    case isFalse =>
      split
      case isTrue =>
        split <;> rfl
      case isFalse => rfl

lemma ExchangeMergeSink.eventInput_publisher (s : ExchangeMergeSink) (w : ExchangeState) :
    (s.eventInput w).sink.peer_endpoint_publisher = s.peer_endpoint_publisher := by
  unfold ExchangeMergeSink.eventInput
  split
  case isTrue => rfl
  case isFalse =>
    split
    case isTrue => rfl
    case isFalse =>
      split
      case isTrue =>
        split <;> rfl
      case isFalse => rfl

lemma ExchangeMergeSink.event_no_pending (s : ExchangeMergeSink) (w : ExchangeState)
    (hout : s.output_data = none) :
    s.event w = s.eventInput w := by
  unfold ExchangeMergeSink.event
  rw [hout]

/-- With a pending frame and a resolvable publisher, `event` reduces to a
flush attempt from a sink whose publisher is cached, whose buffers other than
the taken output are untouched, over a world with the same channel. -/
lemma ExchangeMergeSink.event_pending_resolved (s : ExchangeMergeSink) (w : ExchangeState)
    (o : FlightData) (hout : s.output_data = some o)
    (hres : s.can_resolve_publisher) :
    ∃ (s1 : ExchangeMergeSink) (w1 : ExchangeState) (p : Sender),
      s1.peer_endpoint_publisher = some p ∧
      s1.input = s.input ∧ s1.input_data = s.input_data ∧ s1.output_data = none ∧
      w1.channel = w.channel ∧
      s.event w = s1.eventFlush w1 o := by
  unfold ExchangeMergeSink.event
  rw [hout]
  rcases hres with ⟨p, hp⟩ | ⟨hnone, p, hok⟩
  · refine ⟨{ s with output_data := none }, w, p, ?_, rfl, rfl, rfl, rfl, ?_⟩
    · simpa using hp
    · simp only [hp]
  · have hok2 : ({ s with output_data := none } : ExchangeMergeSink).ctx.get_exchange_manager.get_fragment_sink
        ({ s with output_data := none } : ExchangeMergeSink).exchange_params.query_id
        ({ s with output_data := none } : ExchangeMergeSink).exchange_params.destination_id = Except.ok p := hok
    refine ⟨{ s with output_data := none, peer_endpoint_publisher := some p },
      { w with lookups := w.lookups + 1 }, p, rfl, rfl, rfl, rfl, rfl, ?_⟩
    simp only [hnone, hok2]

/-! ## Claim theorems -/

/-- C4: for every buffered input block with zero rows, `process()` consumes
the block and returns `Ok` without producing any wire frame: `output_data`
remains `None` afterwards, so no frame is ever sent to the destination
channel for an empty block. -/
theorem process_empty_block_silent (s : ExchangeMergeSink) (b : DataBlock)
    (hin : s.input_data = some b) (hrows : b.num_rows = 0)
    (hout : s.output_data = none) :
    s.process.2 = Except.ok () ∧
    s.process.1.input_data = none ∧
    s.process.1.output_data = none := by
  have hempty : b.is_empty = true := by simp [DataBlock.is_empty, hrows]
  have h : s.process = ({ s with input_data := none }, Except.ok ()) := by
    unfold ExchangeMergeSink.process
    rw [hin]
    simp [hempty]
  rw [h]
  exact ⟨rfl, rfl, hout⟩

theorem process_empty_block_silent_witness :
    ({ sampleSink with input_data := some sampleBlockEmpty } : ExchangeMergeSink).process.2
      = Except.ok () ∧
    ({ sampleSink with input_data := some sampleBlockEmpty } : ExchangeMergeSink).process.1.input_data
      = none ∧
    ({ sampleSink with input_data := some sampleBlockEmpty } : ExchangeMergeSink).process.1.output_data
      = none :=
  process_empty_block_silent { sampleSink with input_data := some sampleBlockEmpty }
    sampleBlockEmpty rfl rfl rfl

/-- C5: for every non-empty buffered input block whose serialization yields a
non-empty set of dictionary segments, `process()` returns an explicit
`UnImplement` error and stores no output frame. -/
theorem process_dicts_unimplemented (s : ExchangeMergeSink) (b : DataBlock) (c : Chunk)
    (hin : s.input_data = some b) (hrows : b.num_rows ≠ 0)
    (hchunk : b.chunk = Except.ok c) (hdicts : c.dicts ≠ [])
    (hout : s.output_data = none) :
    s.process.2 =
      Except.error (ErrorCode.UnImplement "DatabendQuery does not implement dicts.") ∧
    s.process.1.output_data = none := by
  have hempty : b.is_empty = false := by simp [DataBlock.is_empty, hrows]
  have hde : c.dicts.isEmpty = false := by
    cases hc : c.dicts with
    | nil => exact absurd hc hdicts
    | cons a t => rfl
  have h : s.process = ({ s with input_data := none },
      Except.error (ErrorCode.UnImplement "DatabendQuery does not implement dicts.")) := by
    unfold ExchangeMergeSink.process
    rw [hin]
    simp [hempty, DataBlock.try_into, hchunk, serialize_batch, hde]
  rw [h]
  exact ⟨rfl, hout⟩

theorem process_dicts_unimplemented_witness :
    ({ sampleSink with input_data := some sampleBlockDicts } : ExchangeMergeSink).process.2 =
      Except.error (ErrorCode.UnImplement "DatabendQuery does not implement dicts.") ∧
    ({ sampleSink with input_data := some sampleBlockDicts } : ExchangeMergeSink).process.1.output_data
      = none :=
  process_dicts_unimplemented { sampleSink with input_data := some sampleBlockDicts }
    sampleBlockDicts sampleChunkDicts rfl (by decide) rfl (by decide) rfl

/-- C6: if the awaited send inside `async_process()` fails, `async_process()`
returns an explicit error rather than `Finished` or silent success, so the
failure propagates to the scheduler as fatal for the fragment. -/
theorem async_process_send_failure (s : ExchangeMergeSink) (w : ExchangeState)
    (v : FlightData) (p : Sender)
    (hout : s.output_data = some v)
    (hpub : s.peer_endpoint_publisher = some p)
    (hclosed : w.channel.closed = true) :
    (s.async_process w).result = Except.error (ErrorCode.TokioError
      "Cannot send flight data to endpoint, because sender is closed.") := by
  simp [ExchangeMergeSink.async_process, hout, hpub, Channel.send, hclosed]

/-- A sink with a pending frame and a cached publisher. -/
def pendingPubSink : ExchangeMergeSink :=
  { sampleSink with
    output_data := some sampleFrame,
    peer_endpoint_publisher := some { id := 0 } }

theorem async_process_send_failure_witness :
    (pendingPubSink.async_process (sampleWorld closedChannel)).result =
      Except.error (ErrorCode.TokioError
        "Cannot send flight data to endpoint, because sender is closed.") :=
  async_process_send_failure pendingPubSink (sampleWorld closedChannel)
    sampleFrame { id := 0 } rfl rfl rfl

/-- C8: `async_process()` unconditionally removes the pending frame from
`output_data` before the send, so `output_data` is `None` after any call,
including a failed send; with no cached publisher the frame is silently
discarded, `Ok` is returned and the world is untouched. -/
theorem async_process_clears_output (s : ExchangeMergeSink) (w : ExchangeState) :
    (s.async_process w).sink.output_data = none ∧
    (∀ v, s.output_data = some v → s.peer_endpoint_publisher = none →
      (s.async_process w).result = Except.ok () ∧
      (s.async_process w).world = w) := by
  constructor
  · cases hout : s.output_data with
    | none => simp [ExchangeMergeSink.async_process, hout]
    | some v =>
        cases hpub : s.peer_endpoint_publisher with
        | none => simp [ExchangeMergeSink.async_process, hout, hpub]
        | some p =>
            cases hsend : w.channel.send v with
            | error e => simp [ExchangeMergeSink.async_process, hout, hpub, hsend]
            | ok ch => simp [ExchangeMergeSink.async_process, hout, hpub, hsend]
  · intro v hv hnone
    simp [ExchangeMergeSink.async_process, hv, hnone]

theorem async_process_clears_output_witness :
    (({ sampleSink with output_data := some sampleFrame } : ExchangeMergeSink).async_process
      (sampleWorld openChannel)).sink.output_data = none ∧
    (({ sampleSink with output_data := some sampleFrame } : ExchangeMergeSink).async_process
      (sampleWorld openChannel)).result = Except.ok () ∧
    (({ sampleSink with output_data := some sampleFrame } : ExchangeMergeSink).async_process
      (sampleWorld openChannel)).world = sampleWorld openChannel :=
  ⟨(async_process_clears_output { sampleSink with output_data := some sampleFrame }
      (sampleWorld openChannel)).1,
   (async_process_clears_output { sampleSink with output_data := some sampleFrame }
      (sampleWorld openChannel)).2 sampleFrame rfl rfl⟩

/-- C9: `DataTypeDate32::create_constant_column` never returns an error: a
value convertible to `i64` yields a constant `Int32` column of the requested
size holding the value truncated to `i32`; a failed conversion yields an
all-null column of that size. -/
theorem create_constant_column_never_errors (data : DataValue) (size : Nat) :
    (∃ col, DataTypeDate32.create_constant_column data size = Except.ok col) ∧
    (∀ v, data.as_i64 = Except.ok v →
      DataTypeDate32.create_constant_column data size =
        Except.ok (ColumnRef.int32 (List.replicate size (some (i64_as_i32 v))))) ∧
    (∀ e, data.as_i64 = Except.error e →
      DataTypeDate32.create_constant_column data size =
        Except.ok (ColumnRef.int32 (List.replicate size none))) := by
  refine ⟨?_, ?_, ?_⟩
  · unfold DataTypeDate32.create_constant_column
    cases h : data.as_i64 with
    | error e => exact ⟨_, rfl⟩
    | ok v => exact ⟨_, rfl⟩
  · intro v hv
    unfold DataTypeDate32.create_constant_column
    rw [hv]
    rfl
  · intro e he
    unfold DataTypeDate32.create_constant_column
    rw [he]
    rfl

theorem create_constant_column_never_errors_witness :
    DataTypeDate32.create_constant_column { as_i64 := Except.ok 3 } 2 =
      Except.ok (ColumnRef.int32 (List.replicate 2 (some (i64_as_i32 3)))) :=
  (create_constant_column_never_errors { as_i64 := Except.ok 3 } 2).2.1 3 rfl

/-- C10: every failure path of `IcebergTable::try_create_table_from_read`
yields a `ReadTableDataError`: unreadable or undecodable or unparsable
version hint, and unreadable or undeserializable versioned metadata, all map
to that error kind and no other. -/
theorem try_create_table_errors_are_read_errors (catalog : String) (tenant : String)
    (database : String) (table_name : String) (env : IcebergEnv) (e : ErrorCode)
    (h : IcebergTable.try_create_table_from_read catalog tenant database table_name env
      = Except.error e) :
    e.is_read_table_data_error = true := by
  unfold IcebergTable.try_create_table_from_read at h
  dsimp only at h
  split at h
  · simp only [Except.error.injEq] at h
    subst h
    rfl
  · split at h
    · simp only [Except.error.injEq] at h
      subst h
      rfl
    · split at h
      · simp only [Except.error.injEq] at h
        subst h
        rfl
      · split at h
        · simp only [Except.error.injEq] at h
          subst h
          rfl
        · split at h
          · simp only [Except.error.injEq] at h
            subst h
            rfl
          · exact absurd h (by simp)

/-- An environment whose object storage refuses every read. -/
def unreadableEnv : IcebergEnv :=
  { read := fun _ => Except.error "nope"
    from_utf8 := fun _ => Except.ok ""
    parse_u64 := fun _ => Except.ok 0
    deserialize_metadata := fun _ => Except.ok { tag := 0 }
    meta_convert := fun _ _ => { tag := 0 } }

theorem try_create_table_errors_are_read_errors_witness :
    (ErrorCode.ReadTableDataError "invalid version_hint.text: nope").is_read_table_data_error
      = true :=
  try_create_table_errors_are_read_errors "ibg" "t1" "db0" "table1" unreadableEnv
    (ErrorCode.ReadTableDataError "invalid version_hint.text: nope") rfl

/-- C2: with a pending serialized frame and a destination channel whose
non-blocking send reports full, `event()` returns `Async`, the frame stays
buffered in `output_data`, and the input side is untouched: the input port
and input buffer are exactly as before and no input block is drained. -/
theorem event_full_backpressure (s : ExchangeMergeSink) (w : ExchangeState)
    (v : FlightData)
    (hout : s.output_data = some v)
    (hres : s.can_resolve_publisher)
    (hopen : w.channel.closed = false)
    (hfull : w.channel.capacity ≤ w.channel.queue.length) :
    (s.event w).result = Except.ok Event.Async ∧
    (s.event w).sink.output_data = some v ∧
    (s.event w).sink.input = s.input ∧
    (s.event w).sink.input_data = s.input_data ∧
    (s.event w).world.channel = w.channel := by
  obtain ⟨s1, w1, p, hp, hin, hind, -, hch, hev⟩ :=
    s.event_pending_resolved w v hout hres
  rw [hev, s1.eventFlush_full w1 v p hp (by rw [hch]; exact hopen)
    (by rw [hch]; exact hfull)]
  exact ⟨rfl, rfl, hin, hind, hch⟩

/-- A sink with a pending frame and no cached publisher. -/
def pendingSink : ExchangeMergeSink :=
  { sampleSink with output_data := some sampleFrame }

theorem event_full_backpressure_witness :
    (pendingSink.event (sampleWorld fullChannel)).result = Except.ok Event.Async ∧
    (pendingSink.event (sampleWorld fullChannel)).sink.output_data = some sampleFrame ∧
    (pendingSink.event (sampleWorld fullChannel)).sink.input = pendingSink.input ∧
    (pendingSink.event (sampleWorld fullChannel)).sink.input_data = pendingSink.input_data ∧
    (pendingSink.event (sampleWorld fullChannel)).world.channel =
      (sampleWorld fullChannel).channel :=
  event_full_backpressure pendingSink (sampleWorld fullChannel) sampleFrame rfl
    (Or.inr ⟨rfl, ⟨{ id := 0 }, rfl⟩⟩) rfl (by decide)

/-- C3: with a pending serialized frame and a destination channel whose
non-blocking send reports the channel closed, `event()` returns
`Ok(Event::Finished)`: a closed destination is normal termination of the
sink, not an error. -/
theorem event_closed_finished (s : ExchangeMergeSink) (w : ExchangeState)
    (v : FlightData)
    (hout : s.output_data = some v)
    (hres : s.can_resolve_publisher)
    (hclosed : w.channel.closed = true) :
    (s.event w).result = Except.ok Event.Finished := by
  obtain ⟨s1, w1, p, hp, -, -, -, hch, hev⟩ :=
    s.event_pending_resolved w v hout hres
  rw [hev, s1.eventFlush_closed w1 v p hp (by rw [hch]; exact hclosed)]

theorem event_closed_finished_witness :
    (pendingSink.event (sampleWorld closedChannel)).result = Except.ok Event.Finished :=
  event_closed_finished pendingSink (sampleWorld closedChannel) sampleFrame rfl
    (Or.inr ⟨rfl, ⟨{ id := 0 }, rfl⟩⟩) rfl

lemma ExchangeMergeSink.eventFlush_lookups (s : ExchangeMergeSink) (w : ExchangeState)
    (o : FlightData) : (s.eventFlush w o).world.lookups = w.lookups := by
  cases hpub : s.peer_endpoint_publisher with
  | none => simp [ExchangeMergeSink.eventFlush, hpub, ExchangeMergeSink.eventInput_world]
  | some p =>
      rcases hts : w.channel.try_send o with ⟨ch, oe⟩
      cases oe with
      | none =>
          simp [ExchangeMergeSink.eventFlush, hpub, hts, ExchangeMergeSink.eventInput_world]
      | some te =>
          cases te with
          | Closed x => simp [ExchangeMergeSink.eventFlush, hpub, hts]
          | Full x => simp [ExchangeMergeSink.eventFlush, hpub, hts]

lemma ExchangeMergeSink.eventFlush_publisher (s : ExchangeMergeSink) (w : ExchangeState)
    (o : FlightData) :
    (s.eventFlush w o).sink.peer_endpoint_publisher = s.peer_endpoint_publisher := by
  cases hpub : s.peer_endpoint_publisher with
  | none => simp [ExchangeMergeSink.eventFlush, hpub, ExchangeMergeSink.eventInput_publisher]
  | some p =>
      rcases hts : w.channel.try_send o with ⟨ch, oe⟩
      cases oe with
      | none =>
          simp [ExchangeMergeSink.eventFlush, hpub, hts,
            ExchangeMergeSink.eventInput_publisher]
      | some te =>
          cases te with
          | Closed x => simp [ExchangeMergeSink.eventFlush, hpub, hts]
          | Full x => simp [ExchangeMergeSink.eventFlush, hpub, hts]

lemma ExchangeMergeSink.event_lookup_count (s : ExchangeMergeSink) (w : ExchangeState) :
    (s.event w).world.lookups =
      w.lookups +
        (if s.output_data.isSome && s.peer_endpoint_publisher.isNone then 1 else 0) := by
  cases hout : s.output_data with
  | none =>
      rw [s.event_no_pending w hout]
      simp [hout, ExchangeMergeSink.eventInput_world]
  | some o =>
      cases hpub : s.peer_endpoint_publisher with
      | some p =>
          have hev : s.event w =
              ExchangeMergeSink.eventFlush { s with output_data := none } w o := by
            simp [ExchangeMergeSink.event, hout, hpub]
          rw [hev, ExchangeMergeSink.eventFlush_lookups]
          simp [hout, hpub]
      | none =>
          cases hm : s.ctx.get_exchange_manager.get_fragment_sink
              s.exchange_params.query_id s.exchange_params.destination_id with
          | error e =>
              have hev : s.event w =
                  { sink := { s with output_data := none }
                    world := { w with lookups := w.lookups + 1 }
                    result := Except.error e } := by
                simp [ExchangeMergeSink.event, hout, hpub, hm]
              rw [hev]
              simp [hout, hpub]
          | ok sender =>
              have hev : s.event w =
                  ExchangeMergeSink.eventFlush
                    { s with output_data := none, peer_endpoint_publisher := some sender }
                    { w with lookups := w.lookups + 1 } o := by
                simp [ExchangeMergeSink.event, hout, hpub, hm]
              rw [hev, ExchangeMergeSink.eventFlush_lookups]
              simp [hout, hpub]

lemma ExchangeMergeSink.event_keeps_publisher (s : ExchangeMergeSink) (w : ExchangeState)
    (p : Sender) (hpub : s.peer_endpoint_publisher = some p) :
    (s.event w).sink.peer_endpoint_publisher = some p := by
  cases hout : s.output_data with
  | none =>
      rw [s.event_no_pending w hout, ExchangeMergeSink.eventInput_publisher]
      exact hpub
  | some o =>
      have hev : s.event w =
          ExchangeMergeSink.eventFlush { s with output_data := none } w o := by
        simp [ExchangeMergeSink.event, hout, hpub]
      rw [hev, ExchangeMergeSink.eventFlush_publisher]
      exact hpub

lemma ExchangeMergeSink.process_keeps_publisher (s : ExchangeMergeSink) :
    s.process.1.peer_endpoint_publisher = s.peer_endpoint_publisher := by
  cases hin : s.input_data with
  | none => simp [ExchangeMergeSink.process, hin]
  | some b =>
      cases hemp : b.is_empty with
      | true => simp [ExchangeMergeSink.process, hin, hemp]
      | false =>
          cases hc : b.try_into with
          | error e => simp [ExchangeMergeSink.process, hin, hemp, hc]
          | ok c =>
              cases hd : (serialize_batch c s.serialize_params.ipc_fields
                  s.serialize_params.options).1.isEmpty with
              | true => simp [ExchangeMergeSink.process, hin, hemp, hc, hd]
              | false => simp [ExchangeMergeSink.process, hin, hemp, hc, hd]

lemma ExchangeMergeSink.async_keeps_publisher (s : ExchangeMergeSink) (w : ExchangeState) :
    (s.async_process w).sink.peer_endpoint_publisher = s.peer_endpoint_publisher ∧
    (s.async_process w).world.lookups = w.lookups := by
  cases hout : s.output_data with
  | none => simp [ExchangeMergeSink.async_process, hout]
  | some v =>
      cases hpub : s.peer_endpoint_publisher with
      | none => simp [ExchangeMergeSink.async_process, hout, hpub]
      | some p =>
          cases hsend : w.channel.send v with
          | error e => simp [ExchangeMergeSink.async_process, hout, hpub, hsend]
          | ok ch => simp [ExchangeMergeSink.async_process, hout, hpub, hsend]

/-- C7: the destination publish channel is resolved lazily and at most once:
the exchange-manager lookup happens in `event()` exactly when a pending frame
exists and no publisher is cached; a cached publisher survives `event()`
unchanged; `process()` and `async_process()` never touch the cached publisher
or perform lookups; and `try_create` starts with no cached publisher. -/
theorem publisher_lazily_resolved_once (s : ExchangeMergeSink) (w : ExchangeState) :
    ((s.event w).world.lookups =
      w.lookups +
        (if s.output_data.isSome && s.peer_endpoint_publisher.isNone then 1 else 0)) ∧
    (∀ p, s.peer_endpoint_publisher = some p →
      (s.event w).sink.peer_endpoint_publisher = some p) ∧
    s.process.1.peer_endpoint_publisher = s.peer_endpoint_publisher ∧
    (s.async_process w).sink.peer_endpoint_publisher = s.peer_endpoint_publisher ∧
    (s.async_process w).world.lookups = w.lookups ∧
    (∀ (ctx : QueryContext) (input : InputPort) (params : MergeExchangeParams)
      (sink : ExchangeMergeSink),
      ExchangeMergeSink.try_create ctx input params = Except.ok sink →
      sink.peer_endpoint_publisher = none) := by
  refine ⟨s.event_lookup_count w, fun p hp => s.event_keeps_publisher w p hp,
    s.process_keeps_publisher, (s.async_keeps_publisher w).1,
    (s.async_keeps_publisher w).2, ?_⟩
  intro ctx input params sink h
  unfold ExchangeMergeSink.try_create at h
  cases hsp : params.create_serialize_params with
  | error e =>
      rw [hsp] at h
      exact absurd h (by simp)
  | ok sp =>
      rw [hsp] at h
      simp only [Except.ok.injEq] at h
      subst h
      rfl

theorem publisher_lazily_resolved_once_witness :
    (pendingSink.event (sampleWorld openChannel)).world.lookups =
      (sampleWorld openChannel).lookups +
        (if pendingSink.output_data.isSome && pendingSink.peer_endpoint_publisher.isNone
          then 1 else 0) ∧
    (pendingPubSink.event (sampleWorld openChannel)).sink.peer_endpoint_publisher =
      some { id := 0 } :=
  ⟨(publisher_lazily_resolved_once pendingSink (sampleWorld openChannel)).1,
   (publisher_lazily_resolved_once pendingPubSink (sampleWorld openChannel)).2.1
     { id := 0 } rfl⟩

/-- C1: `event()` follows the spec's priority order: a pending frame is
flushed first (`Finished` when the channel is closed, `Async` when it is
full); otherwise buffered input reports `Sync`; otherwise a finished input
port reports `Finished`; otherwise available input is pulled into the buffer
with `Sync`; otherwise the port is marked need-data and `NeedData` is
reported. -/
theorem event_priority_order (s : ExchangeMergeSink) (w : ExchangeState) :
    (∀ v, s.output_data = some v → s.can_resolve_publisher →
      (w.channel.closed = true → (s.event w).result = Except.ok Event.Finished) ∧
      (w.channel.closed = false → w.channel.capacity ≤ w.channel.queue.length →
        (s.event w).result = Except.ok Event.Async)) ∧
    (s.output_data = none →
      (s.input_data.isSome = true → (s.event w).result = Except.ok Event.Sync) ∧
      (s.input_data = none → s.input.finished = true →
        (s.event w).result = Except.ok Event.Finished) ∧
      (∀ b, s.input_data = none → s.input.finished = false →
        s.input.data = some (Except.ok b) →
        (s.event w).result = Except.ok Event.Sync ∧
        (s.event w).sink.input_data = some b) ∧
      (s.input_data = none → s.input.finished = false → s.input.data = none →
        (s.event w).result = Except.ok Event.NeedData ∧
        (s.event w).sink.input.need_data = true)) := by
  constructor
  · intro v hout hres
    constructor
    · intro hclosed
      obtain ⟨s1, w1, p, hp, -, -, -, hch, hev⟩ := s.event_pending_resolved w v hout hres
      rw [hev, s1.eventFlush_closed w1 v p hp (by rw [hch]; exact hclosed)]
    · intro hopen hfull
      obtain ⟨s1, w1, p, hp, -, -, -, hch, hev⟩ := s.event_pending_resolved w v hout hres
      rw [hev, s1.eventFlush_full w1 v p hp (by rw [hch]; exact hopen)
        (by rw [hch]; exact hfull)]
  · intro hout
    refine ⟨?_, ?_, ?_, ?_⟩
    · intro hbuf
      rw [s.event_no_pending w hout, s.eventInput_buffered w hbuf]
    · intro h1 h2
      rw [s.event_no_pending w hout, s.eventInput_finished w h1 h2]
    · intro b h1 h2 h3
      rw [s.event_no_pending w hout, s.eventInput_pull w b h1 h2 h3]
      exact ⟨rfl, rfl⟩
    · intro h1 h2 h3
      rw [s.event_no_pending w hout, s.eventInput_need_data w h1 h2 h3]
      exact ⟨rfl, rfl⟩

theorem event_priority_order_witness :
    (sampleSink.event (sampleWorld openChannel)).result = Except.ok Event.NeedData ∧
    (sampleSink.event (sampleWorld openChannel)).sink.input.need_data = true :=
  ((event_priority_order sampleSink (sampleWorld openChannel)).2 rfl).2.2.2 rfl rfl rfl

end Datafuse
